import Mathlib

/-!
Verification of the BESS arbitrage optimization model of the `nse-2022`
lecture notebooks.

The embedded code is the notebook function `build_arbitrage_model` together
with the result-extraction cell.  Pyomo symbolic objects are embedded
semantically: a decision-variable assignment is a triple of rational-valued
sequences, a constraint is a predicate on assignments, the objective is a
rational-valued function of the assignment.  Machine reals are embedded as ℚ.

A Python exception during model construction or result extraction is
embedded as `Option.none` / `Except.error`.
-/

/-- The storage parameter dictionary (`storage` cell of the notebook):
capacity, soc_init, soc_min, soc_max, erate_ch, erate_dch, eff_ch, eff_dch. -/
structure StorageParams where
  capacity : ℚ
  soc_init : ℚ
  soc_min : ℚ
  soc_max : ℚ
  erate_ch : ℚ
  erate_dch : ℚ
  eff_ch : ℚ
  eff_dch : ℚ

/-- The concrete `storage` dict of the notebook:
capacity 1 MWh, soc_init 0.5, soc_min 0.1, soc_max 0.9,
erate_ch 1, erate_dch 1, eff_ch 0.95, eff_dch 0.95. -/
def storage : StorageParams :=
  { capacity := 1, soc_init := 1/2, soc_min := 1/10, soc_max := 9/10
    erate_ch := 1, erate_dch := 1, eff_ch := 19/20, eff_dch := 19/20 }

/-- `dt = 0.25` — the timestep duration, a hardcoded literal in
`build_arbitrage_model`. -/
def dt : ℚ := 1/4

/-- An assignment of values to the decision-variable families
`model.bess_energy`, `model.power_ch`, `model.power_dch` (each a pyomo `Var`
indexed by the time set). -/
structure Assign where
  bess_energy : ℕ → ℚ
  power_ch : ℕ → ℚ
  power_dch : ℕ → ℚ

/-- The optimization sense of a pyomo `Objective` (`opt.minimize` /
`opt.maximize`). -/
inductive Sense where
  | minimize
  | maximize
deriving DecidableEq

/-- The pyomo variable domains used in the notebook (`opt.NonNegativeReals`;
`opt.Reals` is pyomo's unrestricted default). -/
inductive VarDomain where
  | nonNegativeReals
  | reals
deriving DecidableEq

/-- The membership predicate of a pyomo variable domain. -/
def VarDomain.holds : VarDomain → ℚ → Prop
  | .nonNegativeReals, x => 0 ≤ x
  | .reals, _ => True

/-- The pyomo `ConcreteModel` populated by `build_arbitrage_model`:
the time set, the domain of each `Var` family, the objective with its sense,
and one field per named `Constraint` component, in the source's order. -/
structure LPModel where
  time : List ℕ
  bess_energy_domain : VarDomain
  power_ch_domain : VarDomain
  power_dch_domain : VarDomain
  obj_sense : Sense
  obj : Assign → ℚ
  constraint_power_charge_limit : ℕ → Assign → Prop
  constraint_power_discharge_limit : ℕ → Assign → Prop
  constraint_energy_max : ℕ → Assign → Prop
  constraint_energy_min : ℕ → Assign → Prop
  constraint_soc_balance : ℕ → Assign → Prop
  constraint_soc_end : Assign → Prop

/-- The model record that `build_arbitrage_model` populates when no rule
raises, for `n = len(df)` timesteps.  Field for field from the source:
  * `model.time = opt.RangeSet(0, n-1)` = `{0, …, n-1}`, whose
    `first()` is `0` and whose `last()` is `n-1`;
  * the three `opt.Var(model.time, domain=opt.NonNegativeReals)` families;
  * `objective_rule`: `sum((m.power_ch[t] - m.power_dch[t]) * dt *
    profile.price[t] for t in model.time)` with `sense=opt.minimize`
    (`profile.price[t]` is a positional lookup, embedded as `profile.getD`);
  * `power_charge_limit_rule`, `power_discharge_limit_rule`,
    `energy_max_rule`, `energy_min_rule` for each `t`;
  * `soc_balance_rule` with its `t == m.time.first()` case split;
  * the scalar `soc_end_rule` at `m.time.last()`. -/
def arbitrage_model (storage_params : StorageParams) (profile : List ℚ) (n : ℕ) : LPModel :=
  { time := List.range n
    bess_energy_domain := VarDomain.nonNegativeReals
    power_ch_domain := VarDomain.nonNegativeReals
    power_dch_domain := VarDomain.nonNegativeReals
    obj_sense := Sense.minimize
    obj := fun a => ∑ t in Finset.range n,
      (a.power_ch t - a.power_dch t) * dt * profile.getD t 0
    constraint_power_charge_limit := fun t a =>
      a.power_ch t ≤ storage_params.capacity * storage_params.erate_ch
    constraint_power_discharge_limit := fun t a =>
      a.power_dch t ≤ storage_params.capacity * storage_params.erate_dch
    constraint_energy_max := fun t a =>
      a.bess_energy t ≤ storage_params.capacity * storage_params.soc_max
    constraint_energy_min := fun t a =>
      a.bess_energy t ≥ storage_params.capacity * storage_params.soc_min
    constraint_soc_balance := fun t a =>
      if t = 0 then
        a.bess_energy t = storage_params.capacity * storage_params.soc_init
          + a.power_ch t * storage_params.eff_ch * dt
          - a.power_dch t * (1/storage_params.eff_dch) * dt
      else
        a.bess_energy t = a.bess_energy (t-1)
          + a.power_ch t * storage_params.eff_ch * dt
          - a.power_dch t * (1/storage_params.eff_dch) * dt
    constraint_soc_end := fun a =>
      a.bess_energy (n-1) ≥ storage_params.capacity * storage_params.soc_init }

/-- `build_arbitrage_model(storage_params, profile)` of the notebook.

`df_len` is the length of the notebook-global dataframe `df`: the source
sets `n = len(df)` (not `len(profile)`), so the ambient `df` is a hidden
input of the function and is made explicit here.

Construction raises (embedded as `none`) in exactly two situations:
  * `df_len > len(profile)`: building the objective evaluates
    `profile.price[t]` for `t` up to `df_len - 1`, and the positional
    lookup past the end of `profile` raises;
  * `df_len = 0`: `soc_end_rule` calls `m.time.last()` on the empty
    `RangeSet`, which raises.
No other input is validated. -/
def build_arbitrage_model (storage_params : StorageParams) (profile : List ℚ)
    (df_len : ℕ) : Option LPModel :=
  if profile.length < df_len then none
  else if df_len = 0 then none
  else some (arbitrage_model storage_params profile df_len)

theorem build_eq_some (sp : StorageParams) (profile : List ℚ) (df_len : ℕ)
    (h1 : 1 ≤ df_len) (h2 : df_len ≤ profile.length) :
    build_arbitrage_model sp profile df_len = some (arbitrage_model sp profile df_len) := by
  unfold build_arbitrage_model
  rw [if_neg (by omega), if_neg (by omega)]

theorem time_head_eq (n : ℕ) (h : 1 ≤ n) : (List.range n).head? = some 0 := by
  obtain ⟨k, rfl⟩ := Nat.exists_eq_add_of_le h
  rw [Nat.add_comm, List.range_succ_eq_map]
  rfl

theorem time_last_eq (n : ℕ) (h : 1 ≤ n) : (List.range n).getLast? = some (n - 1) := by
  obtain ⟨k, rfl⟩ := Nat.exists_eq_add_of_le h
  rw [Nat.add_comm, List.range_succ, List.getLast?_concat]
  simp

/-- C1: every model built by `build_arbitrage_model` contains, for every
timestep `t` of its time set, the SOC-balance equality constraint:
`energy[0] = capacity·soc_init + power_ch[0]·eff_ch·dt − power_dch[0]·(1/eff_dch)·dt`
at the first timestep, and
`energy[t] = energy[t-1] + power_ch[t]·eff_ch·dt − power_dch[t]·(1/eff_dch)·dt`
for `t > 0`, the first-timestep case being selected exactly when `t` equals
the first index of the time grid (which is `0`). -/
theorem C1_soc_balance (sp : StorageParams) (profile : List ℚ) (df_len : ℕ)
    (h1 : 1 ≤ df_len) (h2 : df_len ≤ profile.length) :
    ∃ m : LPModel, build_arbitrage_model sp profile df_len = some m ∧
      m.time.head? = some 0 ∧
      ∀ t ∈ m.time, ∀ a : Assign,
        (t = 0 → (m.constraint_soc_balance t a ↔
          a.bess_energy 0 = sp.capacity * sp.soc_init
            + a.power_ch 0 * sp.eff_ch * dt
            - a.power_dch 0 * (1/sp.eff_dch) * dt)) ∧
        (t ≠ 0 → (m.constraint_soc_balance t a ↔
          a.bess_energy t = a.bess_energy (t-1)
            + a.power_ch t * sp.eff_ch * dt
            - a.power_dch t * (1/sp.eff_dch) * dt)) := by
  refine ⟨arbitrage_model sp profile df_len, build_eq_some sp profile df_len h1 h2,
    time_head_eq df_len h1, ?_⟩
  intro t _ a
  constructor
  · rintro rfl
    simp [arbitrage_model]
  · intro ht
    simp [arbitrage_model, ht]

/-- C1 witness: the concrete notebook storage parameters and the spec's
four-step price profile, checked at a well-formed build. -/
theorem C1_soc_balance_witness :
    (1 ≤ 4 ∧ 4 ≤ ([10, 50, 10, 50] : List ℚ).length) ∧
    (∃ m : LPModel, build_arbitrage_model storage [10, 50, 10, 50] 4 = some m ∧
      m.time.head? = some 0 ∧
      ∀ t ∈ m.time, ∀ a : Assign,
        (t = 0 → (m.constraint_soc_balance t a ↔
          a.bess_energy 0 = storage.capacity * storage.soc_init
            + a.power_ch 0 * storage.eff_ch * dt
            - a.power_dch 0 * (1/storage.eff_dch) * dt)) ∧
        (t ≠ 0 → (m.constraint_soc_balance t a ↔
          a.bess_energy t = a.bess_energy (t-1)
            + a.power_ch t * storage.eff_ch * dt
            - a.power_dch t * (1/storage.eff_dch) * dt))) :=
  ⟨by decide, C1_soc_balance storage [10, 50, 10, 50] 4 (by decide) (by decide)⟩

/-- C2: for every storage parameter set and price profile of length `n`
(the intended use, where the ambient dataframe is the profile itself), the
objective of the built model is minimized and equals
`Σ_{t=0}^{n-1} (power_ch[t] − power_dch[t]) · dt · price[t]`. -/
theorem C2_objective (sp : StorageParams) (profile : List ℚ)
    (h1 : 1 ≤ profile.length) :
    ∃ m : LPModel, build_arbitrage_model sp profile profile.length = some m ∧
      m.obj_sense = Sense.minimize ∧
      ∀ a : Assign, m.obj a = ∑ t in Finset.range profile.length,
        (a.power_ch t - a.power_dch t) * dt * profile.getD t 0 := by
  exact ⟨arbitrage_model sp profile profile.length,
    build_eq_some sp profile profile.length h1 le_rfl, rfl, fun _ => rfl⟩

/-- C2 witness: the objective shape checked at the notebook storage and the
spec's four-step price profile. -/
theorem C2_objective_witness :
    1 ≤ ([10, 50, 10, 50] : List ℚ).length ∧
    (∃ m : LPModel,
      build_arbitrage_model storage [10, 50, 10, 50] ([10, 50, 10, 50] : List ℚ).length = some m ∧
      m.obj_sense = Sense.minimize ∧
      ∀ a : Assign, m.obj a = ∑ t in Finset.range ([10, 50, 10, 50] : List ℚ).length,
        (a.power_ch t - a.power_dch t) * dt * ([10, 50, 10, 50] : List ℚ).getD t 0) :=
  ⟨by decide, C2_objective storage [10, 50, 10, 50] (by decide)⟩

/-- C3: the built model has exactly one terminal-state constraint (the
single scalar field `constraint_soc_end`), requiring
`energy[last] ≥ capacity · soc_init` at the last index of the time grid;
it is an inequality and not the corresponding equality. -/
theorem C3_soc_end (sp : StorageParams) (profile : List ℚ) (df_len : ℕ)
    (h1 : 1 ≤ df_len) (h2 : df_len ≤ profile.length) :
    ∃ m : LPModel, build_arbitrage_model sp profile df_len = some m ∧
      m.time.getLast? = some (df_len - 1) ∧
      (∀ a : Assign, m.constraint_soc_end a ↔
        a.bess_energy (df_len - 1) ≥ sp.capacity * sp.soc_init) ∧
      ¬(∀ a : Assign, m.constraint_soc_end a ↔
        a.bess_energy (df_len - 1) = sp.capacity * sp.soc_init) := by
  refine ⟨arbitrage_model sp profile df_len, build_eq_some sp profile df_len h1 h2,
    time_last_eq df_len h1, fun _ => Iff.rfl, ?_⟩
  intro hcontra
  have h := (hcontra ⟨fun _ => sp.capacity * sp.soc_init + 1, fun _ => 0, fun _ => 0⟩).mp
  simp only [arbitrage_model] at h
  have := h (by linarith)
  linarith

/-- C3 witness: the terminal constraint checked at the notebook storage and
the spec's four-step price profile. -/
theorem C3_soc_end_witness :
    (1 ≤ 4 ∧ 4 ≤ ([10, 50, 10, 50] : List ℚ).length) ∧
    (∃ m : LPModel, build_arbitrage_model storage [10, 50, 10, 50] 4 = some m ∧
      m.time.getLast? = some (4 - 1) ∧
      (∀ a : Assign, m.constraint_soc_end a ↔
        a.bess_energy (4 - 1) ≥ storage.capacity * storage.soc_init) ∧
      ¬(∀ a : Assign, m.constraint_soc_end a ↔
        a.bess_energy (4 - 1) = storage.capacity * storage.soc_init)) :=
  ⟨by decide, C3_soc_end storage [10, 50, 10, 50] 4 (by decide) (by decide)⟩

/-- C4: the built model constrains each variable family to a box: for every
timestep `t`, `power_ch[t] ≤ capacity·erate_ch`,
`power_dch[t] ≤ capacity·erate_dch`, and
`capacity·soc_min ≤ energy[t] ≤ capacity·soc_max`; all three variable
families carry the `NonNegativeReals` domain, whose membership predicate is
exactly the lower bound `0 ≤ x`. -/
theorem C4_box_bounds (sp : StorageParams) (profile : List ℚ) (df_len : ℕ)
    (h1 : 1 ≤ df_len) (h2 : df_len ≤ profile.length) :
    ∃ m : LPModel, build_arbitrage_model sp profile df_len = some m ∧
      m.power_ch_domain = VarDomain.nonNegativeReals ∧
      m.power_dch_domain = VarDomain.nonNegativeReals ∧
      m.bess_energy_domain = VarDomain.nonNegativeReals ∧
      (∀ x : ℚ, VarDomain.nonNegativeReals.holds x ↔ 0 ≤ x) ∧
      ∀ t ∈ m.time, ∀ a : Assign,
        (m.constraint_power_charge_limit t a ↔
          a.power_ch t ≤ sp.capacity * sp.erate_ch) ∧
        (m.constraint_power_discharge_limit t a ↔
          a.power_dch t ≤ sp.capacity * sp.erate_dch) ∧
        (m.constraint_energy_min t a ↔
          sp.capacity * sp.soc_min ≤ a.bess_energy t) ∧
        (m.constraint_energy_max t a ↔
          a.bess_energy t ≤ sp.capacity * sp.soc_max) :=
  ⟨arbitrage_model sp profile df_len, build_eq_some sp profile df_len h1 h2,
    rfl, rfl, rfl, fun _ => Iff.rfl,
    fun _ _ _ => ⟨Iff.rfl, Iff.rfl, Iff.rfl, Iff.rfl⟩⟩

/-- C4 witness: the box bounds checked at the notebook storage and the
spec's four-step price profile. -/
theorem C4_box_bounds_witness :
    (1 ≤ 4 ∧ 4 ≤ ([10, 50, 10, 50] : List ℚ).length) ∧
    (∃ m : LPModel, build_arbitrage_model storage [10, 50, 10, 50] 4 = some m ∧
      m.power_ch_domain = VarDomain.nonNegativeReals ∧
      m.power_dch_domain = VarDomain.nonNegativeReals ∧
      m.bess_energy_domain = VarDomain.nonNegativeReals ∧
      (∀ x : ℚ, VarDomain.nonNegativeReals.holds x ↔ 0 ≤ x) ∧
      ∀ t ∈ m.time, ∀ a : Assign,
        (m.constraint_power_charge_limit t a ↔
          a.power_ch t ≤ storage.capacity * storage.erate_ch) ∧
        (m.constraint_power_discharge_limit t a ↔
          a.power_dch t ≤ storage.capacity * storage.erate_dch) ∧
        (m.constraint_energy_min t a ↔
          storage.capacity * storage.soc_min ≤ a.bess_energy t) ∧
        (m.constraint_energy_max t a ↔
          a.bess_energy t ≤ storage.capacity * storage.soc_max)) :=
  ⟨by decide, C4_box_bounds storage [10, 50, 10, 50] 4 (by decide) (by decide)⟩

/-- The spec's infeasible-input scenario: the notebook storage dict with the
SOC bounds inverted (`soc_min = 0.9`, `soc_max = 0.1`). -/
def storage_inverted : StorageParams :=
  { storage with soc_min := 9/10, soc_max := 1/10 }

/-- C5 counterexample: `build_arbitrage_model` accepts the inverted-bounds
spec and returns a model — it does not reject the input before model
construction. -/
theorem C5_counterexample :
    (build_arbitrage_model storage_inverted [10, 50, 10, 50] 4).isSome = true := by
  rfl

/-- C5 amended: the builder performs no `StorageSpec` validation; an invalid
spec with `capacity·soc_max < capacity·soc_min` is accepted, and the
resulting model's energy-min and energy-max constraints are jointly
unsatisfiable at every timestep, so the invalidity can surface only as
solver infeasibility. -/
theorem C5_no_spec_validation (sp : StorageParams) (profile : List ℚ) (df_len : ℕ)
    (h1 : 1 ≤ df_len) (h2 : df_len ≤ profile.length)
    (hinv : sp.capacity * sp.soc_max < sp.capacity * sp.soc_min) :
    ∃ m : LPModel, build_arbitrage_model sp profile df_len = some m ∧
      ∀ t ∈ m.time, ∀ a : Assign,
        ¬(m.constraint_energy_min t a ∧ m.constraint_energy_max t a) := by
  refine ⟨arbitrage_model sp profile df_len, build_eq_some sp profile df_len h1 h2, ?_⟩
  intro t _ a ⟨hmin, hmax⟩
  simp only [arbitrage_model] at hmin hmax
  linarith

/-- C5 witness: the inverted-bounds spec builds a model whose energy bounds
admit no assignment. -/
theorem C5_no_spec_validation_witness :
    (1 ≤ 4 ∧ 4 ≤ ([10, 50, 10, 50] : List ℚ).length ∧
      storage_inverted.capacity * storage_inverted.soc_max <
        storage_inverted.capacity * storage_inverted.soc_min) ∧
    (∃ m : LPModel, build_arbitrage_model storage_inverted [10, 50, 10, 50] 4 = some m ∧
      ∀ t ∈ m.time, ∀ a : Assign,
        ¬(m.constraint_energy_min t a ∧ m.constraint_energy_max t a)) :=
  ⟨by refine ⟨by decide, by decide, ?_⟩; norm_num [storage_inverted, storage],
    C5_no_spec_validation storage_inverted [10, 50, 10, 50] 4 (by decide) (by decide)
      (by norm_num [storage_inverted, storage])⟩

/-- C6: `build_arbitrage_model` is not a pure function of its argument list:
it reads the number of timesteps from the notebook-global dataframe `df`
(`n = len(df)`), so two calls with equal `storage_params` and equal
`profile` but a different ambient `df` return models with different time
sets.  Evaluated at the failing input: the notebook storage, the profile
`[10, 50]`, and an ambient `df` of length 1 versus length 2. -/
theorem C6_builder_reads_global_df :
    (build_arbitrage_model storage [10, 50] 1).map LPModel.time ≠
      (build_arbitrage_model storage [10, 50] 2).map LPModel.time := by
  simp only [build_arbitrage_model, arbitrage_model]
  decide

/-- The inline time-grid construction of `build_arbitrage_model`
(`n = len(df); dt = 0.25; model.time = opt.RangeSet(0, n-1)`): it produces
the index set `{0, …, n-1}` together with the hardcoded `dt = 0.25`.
`opt.RangeSet(0, n-1)` admits the empty range, so no input makes this step
raise; the `Option` return mirrors that construction never fails. -/
def time_grid (df_len : ℕ) : Option (List ℕ × ℚ) :=
  some (List.range df_len, dt)

/-- C9 counterexample: time-grid construction at `n = 0` succeeds, yielding
the empty index set with `dt = 0.25`, instead of failing as the claim
requires for `n < 1`. -/
theorem C9_counterexample : time_grid 0 = some ([], 1/4) := by
  rfl

/-- C9 amended: time-grid construction, given the series length `n`,
always succeeds, producing the index set `{0, …, n-1}` together with the
hardcoded step duration `dt = 0.25 > 0`; there is no failure for `n < 1`
(that case yields an empty index set) and no `dt ≤ 0` check (dt is not an
input; it is the constant `0.25`). -/
theorem C9_time_grid (df_len : ℕ) :
    time_grid df_len = some (List.range df_len, dt) ∧
    (0 : ℚ) < dt ∧
    ∀ t : ℕ, t ∈ List.range df_len ↔ t < df_len := by
  exact ⟨rfl, by norm_num [dt], fun t => List.mem_range⟩

/-- C8 counterexample: a profile of length 2 does not match a time grid of
1 timestep, yet model construction succeeds (the trailing profile entry is
silently ignored) — no alignment error is raised at build time. -/
theorem C8_counterexample :
    (build_arbitrage_model storage [10, 50] 1).isSome = true := by
  rfl

/-- C8 amended: no explicit alignment check exists.  Model construction
fails exactly when the time grid is empty or extends past the profile
(`len(df) > len(profile)`, where building the objective raises on an
out-of-range price lookup); a profile longer than the grid is accepted with
its trailing entries ignored. -/
theorem C8_build_success_iff (sp : StorageParams) (profile : List ℚ) (df_len : ℕ) :
    (build_arbitrage_model sp profile df_len).isSome = true ↔
      (1 ≤ df_len ∧ df_len ≤ profile.length) := by
  unfold build_arbitrage_model
  by_cases hlen : profile.length < df_len
  · rw [if_pos hlen]
    simp only [Option.isSome_none]
    constructor
    · intro h
      exact absurd h (by decide)
    · intro ⟨_, h⟩
      omega
  · rw [if_neg hlen]
    by_cases hz : df_len = 0
    · rw [if_pos hz]
      simp only [Option.isSome_none]
      constructor
      · intro h
        exact absurd h (by decide)
      · intro ⟨h, _⟩
        omega
    · rw [if_neg hz]
      simp only [Option.isSome_some, true_iff]
      omega

/-- Modelled from the spec (solver boundary, §6): the external LP solver
returns either an optimal assignment of values to every decision variable,
or an infeasible/unbounded status.  The solve step itself is outside the
repository's code. -/
inductive SolverStatus where
  | optimal
  | infeasible
  | unbounded
deriving DecidableEq

/-- The solved model handed to the result-extraction cell: the solver
status reported by `solver.solve` (which that cell never reads), and the
value carried by each decision variable, `none` when the solver loaded no
value into it. -/
structure Solution where
  status : SolverStatus
  power_ch : ℕ → Option ℚ
  power_dch : ℕ → Option ℚ
  bess_energy : ℕ → Option ℚ

/-- The exceptions the result-extraction cell can raise: `opt.value` on a
variable holding no value, and Python's `ZeroDivisionError` from
`/ capacity`. -/
inductive ExtractError where
  | missingValue
  | divByZero
deriving DecidableEq

/-- `opt.value(v)`: returns the variable's value, raises when it is absent. -/
def opt_value (v : Option ℚ) : Except ExtractError ℚ :=
  match v with
  | some x => Except.ok x
  | none => Except.error ExtractError.missingValue

/-- Python division as used in `opt.value(model.bess_energy[t]) / capacity`:
raises `ZeroDivisionError` on a zero divisor. -/
def py_div (x y : ℚ) : Except ExtractError ℚ :=
  if y = 0 then Except.error ExtractError.divByZero else Except.ok (x / y)

/-- `df["power"] = [opt.value(model.power_ch[t]) - opt.value(model.power_dch[t])
for t in model.time]` — the list comprehension, in evaluation order. -/
def power_column (sol : Solution) : List ℕ → Except ExtractError (List ℚ)
  | [] => Except.ok []
  | t :: ts => do
    let c ← opt_value (sol.power_ch t)
    let d ← opt_value (sol.power_dch t)
    let rest ← power_column sol ts
    pure ((c - d) :: rest)

/-- `df["soc"] = [opt.value(model.bess_energy[t]) / capacity
for t in model.time]` — the list comprehension, in evaluation order. -/
def soc_column (sol : Solution) (capacity : ℚ) : List ℕ → Except ExtractError (List ℚ)
  | [] => Except.ok []
  | t :: ts => do
    let e ← opt_value (sol.bess_energy t)
    let s ← py_div e capacity
    let rest ← soc_column sol capacity ts
    pure (s :: rest)

/-- The result-extraction cell of the notebook: first the `power` column,
then the `soc` column, over the model's time set with the storage dict's
`capacity`.  The solver status held by `sol` is never consulted. -/
def extract_results (time : List ℕ) (capacity : ℚ) (sol : Solution) :
    Except ExtractError (List ℚ × List ℚ) := do
  let power ← power_column sol time
  let soc ← soc_column sol capacity time
  pure (power, soc)

theorem power_column_ok (sol : Solution) (pc pd : ℕ → ℚ) (l : List ℕ)
    (hch : ∀ t ∈ l, sol.power_ch t = some (pc t))
    (hdch : ∀ t ∈ l, sol.power_dch t = some (pd t)) :
    power_column sol l = Except.ok (l.map fun t => pc t - pd t) := by
  induction l with
  | nil => rfl
  | cons t ts ih =>
    rw [power_column, hch t (List.mem_cons_self t ts), hdch t (List.mem_cons_self t ts),
      ih (fun x hx => hch x (List.mem_cons_of_mem t hx))
        (fun x hx => hdch x (List.mem_cons_of_mem t hx))]
    rfl

theorem soc_column_ok (sol : Solution) (pe : ℕ → ℚ) (capacity : ℚ) (l : List ℕ)
    (he : ∀ t ∈ l, sol.bess_energy t = some (pe t)) (hc : capacity ≠ 0) :
    soc_column sol capacity l = Except.ok (l.map fun t => pe t / capacity) := by
  induction l with
  | nil => rfl
  | cons t ts ih =>
    rw [soc_column, he t (List.mem_cons_self t ts),
      ih (fun x hx => he x (List.mem_cons_of_mem t hx))]
    simp only [opt_value, py_div, if_neg hc]
    rfl

theorem soc_column_zero_capacity (sol : Solution) (t : ℕ) (ts : List ℕ) (e : ℚ)
    (he : sol.bess_energy t = some e) :
    soc_column sol 0 (t :: ts) = Except.error ExtractError.divByZero := by
  rw [soc_column, he]
  rfl

theorem power_column_status (sol : Solution) (s : SolverStatus) (l : List ℕ) :
    power_column { sol with status := s } l = power_column sol l := by
  induction l with
  | nil => rfl
  | cons t ts ih => rw [power_column, power_column, ih]

theorem soc_column_status (sol : Solution) (s : SolverStatus) (capacity : ℚ) (l : List ℕ) :
    soc_column { sol with status := s } capacity l = soc_column sol capacity l := by
  induction l with
  | nil => rfl
  | cons t ts ih => rw [soc_column, soc_column, ih]

theorem extract_results_status (time : List ℕ) (capacity : ℚ) (sol : Solution)
    (s : SolverStatus) :
    extract_results time capacity { sol with status := s } =
      extract_results time capacity sol := by
  simp only [extract_results, power_column_status, soc_column_status]

/-- C7 counterexample: a `Solution` marked infeasible but still carrying
variable values is not rejected — the extraction cell never reads the
solver status and emits the series anyway. -/
theorem C7_counterexample :
    extract_results [0] 1
      { status := SolverStatus.infeasible
        power_ch := fun _ => some 1
        power_dch := fun _ => some 0
        bess_energy := fun _ => some (1/2) } =
      Except.ok ([1], [1/2]) := by
  rw [extract_results,
    power_column_ok _ (fun _ => 1) (fun _ => 0) [0] (fun _ _ => rfl) (fun _ _ => rfl),
    soc_column_ok _ (fun _ => 1/2) 1 [0] (fun _ _ => rfl) one_ne_zero]
  norm_num
  rfl

/-- C7 amended: the extraction cell performs no solver-status check.
Whatever status the solution carries, whenever every referenced variable
holds a value and `capacity ≠ 0` it produces, per timestep, net power
`power_ch[t] − power_dch[t]` and SOC `energy[t] / capacity`; its only
failure modes are a missing variable value (`opt.value` raising) and a zero
capacity, not a non-optimal status. -/
theorem C7_no_status_check (time : List ℕ) (capacity : ℚ) (sol : Solution)
    (pc pd pe : ℕ → ℚ)
    (hch : ∀ t ∈ time, sol.power_ch t = some (pc t))
    (hdch : ∀ t ∈ time, sol.power_dch t = some (pd t))
    (he : ∀ t ∈ time, sol.bess_energy t = some (pe t))
    (hc : capacity ≠ 0) :
    (∀ s : SolverStatus,
      extract_results time capacity { sol with status := s } =
        extract_results time capacity sol) ∧
    extract_results time capacity sol =
      Except.ok (time.map fun t => pc t - pd t, time.map fun t => pe t / capacity) := by
  refine ⟨fun s => extract_results_status time capacity sol s, ?_⟩
  rw [extract_results, power_column_ok sol pc pd time hch hdch,
    soc_column_ok sol pe capacity time he hc]
  rfl

/-- C7 witness: a concrete optimal solution over one timestep. -/
theorem C7_no_status_check_witness :
    ((∀ t ∈ ([0] : List ℕ), (fun _ => some (2:ℚ)) t = some 2) ∧
     (∀ t ∈ ([0] : List ℕ), (fun _ => some (1:ℚ)) t = some 1) ∧
     (∀ t ∈ ([0] : List ℕ), (fun _ => some ((1:ℚ)/2)) t = some (1/2)) ∧
     (1 : ℚ) ≠ 0) ∧
    ((∀ s : SolverStatus,
      extract_results [0] 1
        { status := s, power_ch := fun _ => some 2, power_dch := fun _ => some 1
          bess_energy := fun _ => some (1/2) } =
      extract_results [0] 1
        { status := SolverStatus.optimal, power_ch := fun _ => some 2
          power_dch := fun _ => some 1, bess_energy := fun _ => some (1/2) }) ∧
    extract_results [0] 1
      { status := SolverStatus.optimal, power_ch := fun _ => some 2
        power_dch := fun _ => some 1, bess_energy := fun _ => some (1/2) } =
      Except.ok (([0] : List ℕ).map fun _ => (2:ℚ) - 1,
                 ([0] : List ℕ).map fun _ => (1:ℚ)/2/1)) :=
  ⟨⟨fun _ _ => rfl, fun _ _ => rfl, fun _ _ => rfl, by norm_num⟩,
    C7_no_status_check [0] 1
      { status := SolverStatus.optimal, power_ch := fun _ => some 2
        power_dch := fun _ => some 1, bess_energy := fun _ => some (1/2) }
      (fun _ => 2) (fun _ => 1) (fun _ => 1/2)
      (fun _ _ => rfl) (fun _ _ => rfl) (fun _ _ => rfl) (by norm_num)⟩

/-- C10: the SOC computation of the extraction cell divides each solved
`energy[t]` by `capacity` without any guard: with `capacity = 0` and a
fully-valued solution over a nonempty time set it raises
`ZeroDivisionError` (rather than signalling a reporting error), and for
any `capacity ≠ 0` the same extraction succeeds — so it is well-defined
exactly under the precondition `capacity ≠ 0`. -/
theorem C10_soc_divides_unguarded (t0 : ℕ) (time : List ℕ) (sol : Solution)
    (pc pd pe : ℕ → ℚ)
    (hch : ∀ t ∈ t0 :: time, sol.power_ch t = some (pc t))
    (hdch : ∀ t ∈ t0 :: time, sol.power_dch t = some (pd t))
    (he : ∀ t ∈ t0 :: time, sol.bess_energy t = some (pe t)) :
    extract_results (t0 :: time) 0 sol = Except.error ExtractError.divByZero ∧
    ∀ c : ℚ, c ≠ 0 → ∃ out, extract_results (t0 :: time) c sol = Except.ok out := by
  constructor
  · rw [extract_results, power_column_ok sol pc pd (t0 :: time) hch hdch,
      soc_column_zero_capacity sol t0 time (pe t0) (he t0 (List.mem_cons_self t0 time))]
    rfl
  · intro c hc
    refine ⟨((t0 :: time).map fun t => pc t - pd t,
      (t0 :: time).map fun t => pe t / c), ?_⟩
    rw [extract_results, power_column_ok sol pc pd (t0 :: time) hch hdch,
      soc_column_ok sol pe c (t0 :: time) he hc]
    rfl

/-- C10 witness: extraction with the sizing-degenerate `capacity = 0` on a
one-step fully-valued solution raises the division error, while any nonzero
capacity succeeds. -/
theorem C10_soc_divides_unguarded_witness :
    ((∀ t ∈ (0 : ℕ) :: ([] : List ℕ), (fun _ => some (3:ℚ)) t = some 3) ∧
     (∀ t ∈ (0 : ℕ) :: ([] : List ℕ), (fun _ => some (1:ℚ)) t = some 1) ∧
     (∀ t ∈ (0 : ℕ) :: ([] : List ℕ), (fun _ => some ((2:ℚ)/5)) t = some (2/5))) ∧
    (extract_results ((0 : ℕ) :: []) 0
      { status := SolverStatus.optimal, power_ch := fun _ => some 3
        power_dch := fun _ => some 1, bess_energy := fun _ => some (2/5) } =
      Except.error ExtractError.divByZero ∧
    ∀ c : ℚ, c ≠ 0 → ∃ out,
      extract_results ((0 : ℕ) :: []) c
        { status := SolverStatus.optimal, power_ch := fun _ => some 3
          power_dch := fun _ => some 1, bess_energy := fun _ => some (2/5) } =
        Except.ok out) :=
  ⟨⟨fun _ _ => rfl, fun _ _ => rfl, fun _ _ => rfl⟩,
    C10_soc_divides_unguarded 0 []
      { status := SolverStatus.optimal, power_ch := fun _ => some 3
        power_dch := fun _ => some 1, bess_energy := fun _ => some (2/5) }
      (fun _ => 3) (fun _ => 1) (fun _ => 2/5)
      (fun _ _ => rfl) (fun _ _ => rfl) (fun _ _ => rfl)⟩
